import Mathlib

/-!
Verification of the gnome-calendar GUI specification against the sources
`gcal-search-button.c` (search query dispatching) and
`src/gui/importer/gcal-import-dialog.c` (ICS import dialog).

The development shallowly embeds the state held in the `GcalSearchButton`
and `GcalImportDialog` structs, and the callback functions that the claims
refer to, as pure Lean functions over explicit state records.  Calls into
external collaborators (the search engine, the `ECalClient` backend) are
modelled as emitted effect values, and the behaviour of the backend is an
explicit oracle parameter, so that the theorems quantify over every
possible backend response.
-/

/-! ## Search button (`gcal-search-button.c`) -/

/--
State of the `GcalSearchButton` widget that the claims depend on.

`cancellable` models the `GCancellable *cancellable` field: `none` is a
NULL pointer, `some tok` is a pointer to a token with id `tok`.  Nothing in
`gcal-search-button.c` ever assigns this field (there is no
`g_cancellable_new` in the file), so after `g_object_new` zero-fills the
instance it stays `none`; the embedding nevertheless models the field and
the cancelled-token set faithfully rather than hard-coding `none`.

`displayedModel` is the `GListModel` currently bound to `results_listbox`
by `gtk_list_box_bind_model`, identified by an id (`none` = NULL model);
`revealChild` is the `reveal-child` property of `results_revealer`
(the suggestion popover pops down once this is false);
`entryText` is the text of the `GtkEditable` entry.
-/
structure SearchButtonState where
  cancellable : Option Nat
  cancelledTokens : List Nat
  displayedModel : Option Nat
  revealChild : Bool
  entryText : String
deriving DecidableEq, Repr

/-- Freshly constructed widget: `g_object_new` zero-fills the struct, so the
cancellable pointer is NULL, no model is bound, nothing is revealed. -/
def initialSearchButtonState : SearchButtonState :=
  { cancellable := none
    cancelledTokens := []
    displayedModel := none
    revealChild := false
    entryText := "" }

/-- Embedding of `g_cancellable_cancel (self->cancellable)`: cancelling a
NULL cancellable is documented by GLib to do nothing; cancelling an
allocated token marks it cancelled. -/
def cancelCancellable (s : SearchButtonState) : SearchButtonState :=
  match s.cancellable with
  | none => s
  | some tok => { s with cancelledTokens := tok :: s.cancelledTokens }

/-- Embedding of `show_suggestions`: sets `reveal-child` to TRUE (and pops
the popover up, which follows `revealChild` here). -/
def show_suggestions (s : SearchButtonState) : SearchButtonState :=
  { s with revealChild := true }

/-- Embedding of `hide_suggestions`: sets `reveal-child` to FALSE and
clears the entry text. -/
def hide_suggestions (s : SearchButtonState) : SearchButtonState :=
  { s with revealChild := false, entryText := "" }

/-- Embedding of `set_model`: binds `model` to the results list box, then
shows the suggestions if the model is non-NULL and hides them otherwise. -/
def set_model (s : SearchButtonState) (model : Option Nat) : SearchButtonState :=
  let s := { s with displayedModel := model }
  if model.isSome then show_suggestions s else hide_suggestions s

/-- Call into `gcal_search_engine_search`, as emitted by the text-changed
handler: the query expression, the fixed result cap, and the cancellable
pointer passed along. -/
inductive SearchEffect where
  | searchCall (query : String) (limit : Nat) (cancellable : Option Nat)
deriving DecidableEq, Repr

/-- Embedding of the `sexp_query` construction in `on_entry_text_changed_cb`:
`g_strdup_printf ("(contains? \"summary\" \"%s\")", text)` embeds the text
verbatim, with no escaping. -/
def sexpQuery (text : String) : String :=
  "(contains? \"summary\" \"" ++ text ++ "\")"

/-- Embedding of `on_entry_text_changed_cb`.  The handler reads the entry
text, cancels `self->cancellable`, and then either clears the model (empty
text; the NULL-pointer case of `gtk_editable_get_text` cannot occur) or
submits a search with the sexp query, a cap of 50, and the cancellable. -/
def on_entry_text_changed_cb (s : SearchButtonState) :
    SearchButtonState × List SearchEffect :=
  let text := s.entryText
  let s := cancelCancellable s
  if text.isEmpty then
    (set_model s none, [])
  else
    (s, [SearchEffect.searchCall (sexpQuery text) 50 s.cancellable])

/-! ### Asynchronous environment for the search button

`on_search_finished_cb` runs when a previously submitted query completes:
it calls `gcal_search_engine_search_finish` and unconditionally passes the
returned model to `set_model`.  To reason about orderings of completions we
run the button inside a small system that keeps the set of in-flight
queries.  Each submitted query gets a fresh id `qid`, and the model the
engine would return for it is tagged `some qid`, so the displayed model
identifies which query produced it.  Completing a query whose cancellable
token was cancelled yields a NULL model (`G_IO_ERROR_CANCELLED` from
`_finish`); otherwise the query's own result model is delivered. -/

/-- One in-flight search query: its id, the query string, and the
cancellable pointer that was passed to `gcal_search_engine_search`. -/
structure PendingSearch where
  qid : Nat
  query : String
  cancellable : Option Nat
deriving DecidableEq, Repr

/-- The search button together with its in-flight queries. -/
structure SearchSystem where
  button : SearchButtonState
  pending : List PendingSearch
  nextQid : Nat
deriving DecidableEq, Repr

/-- Initial system: fresh widget, nothing in flight. -/
def initialSearchSystem : SearchSystem :=
  { button := initialSearchButtonState, pending := [], nextQid := 0 }

/-- Events driving the search system: a keystroke that sets the entry text
(firing `on_entry_text_changed_cb`), or the completion of the in-flight
query with the given id (firing `on_search_finished_cb`). -/
inductive SearchEvent where
  | keystroke (text : String)
  | completes (qid : Nat)
deriving DecidableEq, Repr

/-- Registering an emitted search call as an in-flight query. -/
def applySearchEffect (sys : SearchSystem) (e : SearchEffect) : SearchSystem :=
  match e with
  | SearchEffect.searchCall q _limit c =>
    { sys with
      pending := sys.pending ++ [{ qid := sys.nextQid, query := q, cancellable := c }]
      nextQid := sys.nextQid + 1 }

/-- One step of the search system. -/
def searchStep (sys : SearchSystem) : SearchEvent → SearchSystem
  | SearchEvent.keystroke text =>
    let r := on_entry_text_changed_cb { sys.button with entryText := text }
    r.2.foldl applySearchEffect { sys with button := r.1 }
  | SearchEvent.completes qid =>
    match sys.pending.find? (fun p => p.qid == qid) with
    | none => sys
    | some p =>
      let cancelled : Bool :=
        match p.cancellable with
        | none => false
        | some tok => sys.button.cancelledTokens.contains tok
      let model : Option Nat := if cancelled then none else some p.qid
      { sys with
        button := set_model sys.button model
        pending := sys.pending.filter (fun q => q.qid != qid) }

/-- Running the search system over a list of events. -/
def runSearch (sys : SearchSystem) (events : List SearchEvent) : SearchSystem :=
  events.foldl searchStep sys

/-! ## Import dialog (`src/gui/importer/gcal-import-dialog.c`) -/

/--
Modelled from the spec: one `GcalImportFileRow` of the import dialog.
`gcal-import-file-row.c` is not under src/; per the spec it is "a per-file
parser row exposing a 'file loaded' notification carrying the parsed
component/timezone collections for that file".  `components` and
`timezones` are the values returned by
`gcal_import_file_row_get_ical_components` / `_get_timezones` (`none`
models a NULL `GPtrArray *`, before the file has been parsed), holding
`ICalComponent` / `ICalTimezone` object ids.  `visible` is the row
widget's visibility; a freshly added row is not yet visible —
`on_import_row_file_loaded_cb` makes it visible when its file loads.
-/
structure ImportRow where
  components : Option (List Nat)
  timezones : Option (List Nat)
  visible : Bool
deriving DecidableEq, Repr

/-- A freshly constructed row: nothing parsed yet, not yet visible. -/
def newImportFileRow : ImportRow :=
  { components := none, timezones := none, visible := false }

/--
State of the `GcalImportDialog` that the claims depend on.

`rows` is the `GList *rows` field in its in-memory order (`g_list_prepend`
puts the most recently added row first); `selectedCalendar` is the
`selected_calendar` pointer (by calendar id, `none` = NULL);
`cancellable` records whether `self->cancellable` has been allocated;
`sensitive` is the widget's sensitivity; `spinnerVisible` the visibility
of `placeholder_spinner` (shown by the dialog template until code hides
it); `nEvents` and `nFiles` are the `gint` counters; `title` the
`AdwDialog` title.
-/
structure DialogState where
  rows : List ImportRow
  selectedCalendar : Option Nat
  cancellable : Bool
  sensitive : Bool
  spinnerVisible : Bool
  nEvents : Int
  nFiles : Int
  title : String
deriving DecidableEq, Repr

/-- Modelled from the spec for the template-provided initial widget state
(the `.ui` template is not under src/): the loading placeholder starts
visible ("shows a loading placeholder until at least one row becomes
visible"), the dialog starts sensitive with no rows, no selected calendar,
no cancellable, and zeroed `gint` counters. -/
def initialDialogState : DialogState :=
  { rows := []
    selectedCalendar := none
    cancellable := false
    sensitive := true
    spinnerVisible := true
    nEvents := 0
    nFiles := 0
    title := "" }

/-- Embedding of `add_file`: creates a row, connects it, prepends it to
`self->rows`, and hides the placeholder spinner.  The preferences-group
wrapper and its basename title (used when `multiple_files` is TRUE) are
pure widget layout and carry no state the claims mention. -/
def add_file (s : DialogState) (multiple_files : Bool) : DialogState :=
  { s with rows := newImportFileRow :: s.rows, spinnerVisible := false }

/-- Embedding of `setup_files`: stores `n_files` and adds each file in
order, passing `n_files > 1` as `multiple_files`. -/
def setup_files (s : DialogState) (files : List Nat) : DialogState :=
  let s := { s with nFiles := (files.length : Int) }
  files.foldl (fun st _ => add_file st (decide (1 < files.length))) s

/-- Embedding of the loop body accumulation of `setup_files_list`: one
`n_files++; add_file (...)` per list node. -/
def files_list_loop (s : DialogState) (n_files : Int) (has_multiple : Bool) :
    List Nat → DialogState × Int
  | [] => (s, n_files)
  | _f :: rest => files_list_loop (add_file s has_multiple) (n_files + 1) has_multiple rest

/-- Embedding of `setup_files_list`.  The very first statement,
`gboolean has_multiple = list->next != NULL;`, dereferences the head node
of the `GList` before any null check, so calling it with an empty (NULL)
list is undefined behaviour — modelled as `none`.  For a non-empty list it
walks the list, adding one row per file and counting, then stores the
count in `self->n_files`. -/
def setup_files_list (s : DialogState) (list : List Nat) : Option DialogState :=
  match list with
  | [] => none
  | f :: rest =>
    let has_multiple := !rest.isEmpty
    let r := files_list_loop s 0 has_multiple (f :: rest)
    some { r.1 with nFiles := r.2 }

/-- Embedding of `gcal_import_dialog_new_for_files`: construct the dialog,
then `setup_files`. -/
def gcal_import_dialog_new_for_files (files : List Nat) : DialogState :=
  setup_files initialDialogState files

/-- Embedding of `gcal_import_dialog_new_for_file_list`: construct the
dialog, then `setup_files_list`. -/
def gcal_import_dialog_new_for_file_list (file_list : List Nat) : Option DialogState :=
  setup_files_list initialDialogState file_list

/-- Embedding of `g_dngettext (GETTEXT_PACKAGE, "Import %d event",
"Import %d events", n)` followed by `g_strdup_printf (..., n)`: with no
translation installed, dngettext picks the singular form exactly when
`n == 1`, and printf substitutes the decimal rendering of the `gint`. -/
def importTitle (n : Int) : String :=
  if n = 1 then "Import " ++ toString n ++ " event"
  else "Import " ++ toString n ++ " events"

/-- Embedding of `on_import_row_file_loaded_cb` for the row at position
`idx` of `self->rows`: adds `events->len` (0 for a NULL array) to
`self->n_events`, sets the dialog title from the running count, and makes
the row visible. -/
def on_import_row_file_loaded_cb (s : DialogState) (idx : Nat)
    (events : Option (List Nat)) : DialogState :=
  let n := s.nEvents + (match events with
                        | some es => (es.length : Int)
                        | none => 0)
  { s with
    nEvents := n
    title := importTitle n
    rows := s.rows.mapIdx fun j r => if j = idx then { r with visible := true } else r }

/-- Embedding of the `g_slist_prepend` loop over a `GPtrArray`: each item
is prepended to the accumulator in order. -/
def prependAll (items : List Nat) (acc : List Nat) : List Nat :=
  items.foldl (fun a x => x :: a) acc

/-- Embedding of the aggregation loop of `on_import_button_clicked_cb`:
walk `self->rows`; a row whose `ical_components` is NULL is skipped
entirely (`continue`), otherwise its components are prepended to `slist`;
then, if its `ical_timezones` is NULL the rest of the body is skipped
(`continue`), otherwise its timezones are prepended to `zones`. -/
def collectLoop : List ImportRow → List Nat → List Nat → List Nat × List Nat
  | [], slist, zones => (slist, zones)
  | r :: rest, slist, zones =>
    match r.components with
    | none => collectLoop rest slist zones
    | some comps =>
      let slist := prependAll comps slist
      match r.timezones with
      | none => collectLoop rest slist zones
      | some tzs => collectLoop rest slist (prependAll tzs zones)

/-- The component list handed to the background task: the prepend-built
`slist`, reversed once (`g_slist_reverse`). -/
def componentsHanded (rows : List ImportRow) : List Nat :=
  (collectLoop rows [] []).1.reverse

/-- The timezone list handed to the background task: the prepend-built
`zones`, reversed once (`g_slist_reverse`). -/
def zonesHanded (rows : List ImportRow) : List Nat :=
  (collectLoop rows [] []).2.reverse

/-- Effects the import dialog callbacks can perform besides updating their
own state. -/
inductive DialogEffect where
  | spawnImportTask (components : List Nat) (zones : List Nat)
  | warnCreateError (msg : String)
  | closeDialog
deriving DecidableEq, Repr

/-- Embedding of `on_import_button_clicked_cb`.  The handler asserts
`self->selected_calendar != NULL` (`none` result models the assertion
failing), aggregates components and timezones across the rows, returns
early when the component list is empty (`if (!slist) GCAL_RETURN ()`),
and otherwise allocates the cancellable, makes the dialog insensitive and
spawns the background task with the two reversed lists. -/
def on_import_button_clicked_cb (s : DialogState) :
    Option (DialogState × List DialogEffect) :=
  match s.selectedCalendar with
  | none => none
  | some _ =>
    let r := collectLoop s.rows [] []
    if r.1.isEmpty then
      some (s, [])
    else
      some ({ s with cancellable := true, sensitive := false },
            [DialogEffect.spawnImportTask r.1.reverse r.2.reverse])

/-- Embedding of `on_events_created_cb`: propagate the task result; on
error log a warning; in every case close the dialog. -/
def on_events_created_cb (result : Except String Unit) : List DialogEffect :=
  match result with
  | Except.error e =>
    [DialogEffect.warnCreateError ("Error creating events: " ++ e), DialogEffect.closeDialog]
  | Except.ok _ => [DialogEffect.closeDialog]

/-! ### Background import task (`import_data_thread`) -/

/-- The `ImportData` handed to the background task: the batched components
and the timezones, both already in submission order. -/
structure ImportData where
  components : List Nat
  zones : List Nat
deriving DecidableEq, Repr

/-- Oracle for the external `ECalClient` and the task cancellable:
`addTzErr z` is the error (if any) `e_cal_client_add_timezone_sync`
reports for timezone `z`; `createErr` the error (if any) of
`e_cal_client_create_objects_sync`; `cancelledFrom = some k` makes
`g_cancellable_is_cancelled` answer TRUE from the `k`-th check of the
zone loop onwards (`none`: never cancelled). -/
structure BackendBehavior where
  addTzErr : Nat → Option String
  createErr : Option String
  cancelledFrom : Option Nat

/-- Whether the `i`-th `g_cancellable_is_cancelled` check answers TRUE. -/
def cancelledAt (cancelledFrom : Option Nat) (i : Nat) : Bool :=
  match cancelledFrom with
  | none => false
  | some k => decide (k ≤ i)

/-- Calls and log lines produced by `import_data_thread`. -/
inductive ImportCall where
  | addTimezone (z : Nat)
  | warnTimezone (msg : String)
  | createObjects (comps : List Nat)
deriving DecidableEq, Repr

/-- The warning `import_data_thread` logs for a failed timezone add. -/
def tzWarnMsg (e : String) : String :=
  "Import: Failed to add timezone: " ++ e

/-- Embedding of the timezone loop of `import_data_thread`: it runs while
there are zones left and the cancellable is not cancelled; each iteration
calls `e_cal_client_add_timezone_sync` and, if that reported an error,
logs a warning — the error is local to the iteration and the loop
continues. -/
def zoneLoop (b : BackendBehavior) : List Nat → Nat → List ImportCall
  | [], _ => []
  | z :: rest, i =>
    if cancelledAt b.cancelledFrom i then []
    else
      (match b.addTzErr z with
       | some e => [ImportCall.addTimezone z, ImportCall.warnTimezone (tzWarnMsg e)]
       | none => [ImportCall.addTimezone z]) ++ zoneLoop b rest (i + 1)

/-- Embedding of `import_data_thread`: the timezone loop, then a single
unconditional `e_cal_client_create_objects_sync` with all the components;
the task returns the create-objects error, or success. -/
def import_data_thread (d : ImportData) (b : BackendBehavior) :
    List ImportCall × Except String Unit :=
  (zoneLoop b d.zones 0 ++ [ImportCall.createObjects d.components],
   match b.createErr with
   | some e => Except.error e
   | none => Except.ok ())

/-- Recognizer for add-timezone calls. -/
def isAddTzCall : ImportCall → Bool
  | ImportCall.addTimezone _ => true
  | _ => false

/-- Recognizer for create-objects calls. -/
def isCreateCall : ImportCall → Bool
  | ImportCall.createObjects _ => true
  | _ => false

/-! ### Event traces of the dialog -/

/-- Events driving the import dialog before submission: a file being added
(`add_file`) or a row's file-loaded signal (`on_import_row_file_loaded_cb`). -/
inductive DialogEvent where
  | addFileEvent (multiple : Bool)
  | rowLoaded (idx : Nat) (events : Option (List Nat))
deriving DecidableEq, Repr

/-- One step of the dialog. -/
def dialogStep (s : DialogState) : DialogEvent → DialogState
  | DialogEvent.addFileEvent m => add_file s m
  | DialogEvent.rowLoaded i ev => on_import_row_file_loaded_cb s i ev

/-- Running the dialog over a list of events. -/
def runDialog (s : DialogState) (events : List DialogEvent) : DialogState :=
  events.foldl dialogStep s

/-- Recognizer for add-file events. -/
def isAddFileEvent : DialogEvent → Bool
  | DialogEvent.addFileEvent _ => true
  | _ => false

/-! ### Spec-side order descriptions and concrete fixtures -/

/-- Row-by-row concatenation of every row's components, in traversal order
and original per-row order (a NULL collection contributes nothing).  This
follows the spec's description of the aggregate order. -/
def rowwiseComponents (rows : List ImportRow) : List Nat :=
  rows.foldr (fun r acc => r.components.getD [] ++ acc) []

/-- Row-by-row concatenation of every row's timezones, in traversal order
and original per-row order (a NULL collection contributes nothing).  This
follows the spec's (and claim C6's) description of the timezone aggregate,
to be compared with what the code computes. -/
def rowwiseTimezones (rows : List ImportRow) : List Nat :=
  rows.foldr (fun r acc => r.timezones.getD [] ++ acc) []

/-- Row-by-row concatenation of the timezones of only those rows whose
components collection is present: a row whose `ical_components` is NULL is
skipped by the aggregation loop before its timezones are read. -/
def guardedRowTimezones (rows : List ImportRow) : List Nat :=
  rows.foldr (fun r acc =>
    (match r.components with
     | none => []
     | some _ => r.timezones.getD []) ++ acc) []

/-- A row with no parsed components but one referenced timezone: the
aggregation loop skips its timezones. -/
def tzSkipRow : ImportRow :=
  { components := none, timezones := some [7], visible := false }

/-- A dialog whose rows have no parsed components at all (one row with an
empty parsed array and one still unparsed), with a calendar selected. -/
def emptyRowsDialog : DialogState :=
  { initialDialogState with
    selectedCalendar := some 0
    rows := [{ components := some [], timezones := some [5], visible := true },
             { components := none, timezones := none, visible := false }] }

/-- The dialog constructed for two files, before either row has loaded. -/
def twoFileDialog : DialogState :=
  gcal_import_dialog_new_for_files [100, 200]

/-- A concrete import batch: one component, two timezones. -/
def importWitnessData : ImportData :=
  { components := [1], zones := [2, 3] }

/-- A concrete backend: adding timezone 2 fails, everything else succeeds,
the task is never cancelled. -/
def importWitnessBehavior : BackendBehavior :=
  { addTzErr := fun z => if z = 2 then some "boom" else none
    createErr := none
    cancelledFrom := none }

/-- A search button showing the results of an earlier query, with the
entry now containing a single space (whitespace-only text). -/
def whitespaceState : SearchButtonState :=
  { initialSearchButtonState with
    entryText := " ", displayedModel := some 3, revealChild := true }

/-- A search button showing results, with the entry now empty. -/
def emptyTextState : SearchButtonState :=
  { initialSearchButtonState with displayedModel := some 9, revealChild := true }

/-- A search button whose entry now reads "abc". -/
def abcState : SearchButtonState :=
  { initialSearchButtonState with entryText := "abc" }

/-! ## Helper lemmas -/

/-- Prepending every item of a list onto an accumulator reverses it onto
the accumulator. -/
theorem prependAll_eq_reverse_append (l acc : List Nat) :
    prependAll l acc = l.reverse ++ acc := by
  induction l generalizing acc with
  | nil => rfl
  | cons x xs ih =>
    show prependAll xs (x :: acc) = (x :: xs).reverse ++ acc
    rw [ih]
    simp

/-- Characterization of the aggregation loop: it produces the reversed
row-by-row concatenations on top of the incoming accumulators. -/
theorem collectLoop_eq (rows : List ImportRow) (slist zones : List Nat) :
    collectLoop rows slist zones =
      ((rowwiseComponents rows).reverse ++ slist,
       (guardedRowTimezones rows).reverse ++ zones) := by
  induction rows generalizing slist zones with
  | nil => simp [collectLoop, rowwiseComponents, guardedRowTimezones]
  | cons r rest ih =>
    cases hc : r.components with
    | none =>
      simp [collectLoop, rowwiseComponents, guardedRowTimezones, hc, ih]
    | some comps =>
      cases ht : r.timezones with
      | none =>
        simp [collectLoop, rowwiseComponents, guardedRowTimezones, hc, ht, ih,
              prependAll_eq_reverse_append]
      | some tzs =>
        simp [collectLoop, rowwiseComponents, guardedRowTimezones, hc, ht, ih,
              prependAll_eq_reverse_append]

/-- The component list handed to the task is the row-by-row concatenation
of the rows' component collections. -/
theorem componentsHanded_eq (rows : List ImportRow) :
    componentsHanded rows = rowwiseComponents rows := by
  simp [componentsHanded, collectLoop_eq]

/-- The timezone list handed to the task is the row-by-row concatenation
of the timezones of the rows whose components collection is present. -/
theorem zonesHanded_eq (rows : List ImportRow) :
    zonesHanded rows = guardedRowTimezones rows := by
  simp [zonesHanded, collectLoop_eq]

/-- Rows without any parsed component contribute an empty component
aggregate. -/
theorem rowwiseComponents_eq_nil (rows : List ImportRow)
    (h : ∀ r ∈ rows, r.components = none ∨ r.components = some []) :
    rowwiseComponents rows = [] := by
  induction rows with
  | nil => rfl
  | cons r rest ih =>
    have hrest : rowwiseComponents rest = [] :=
      ih (fun q hq => h q (List.mem_cons_of_mem _ hq))
    have hr := h r (List.mem_cons_self _ _)
    show r.components.getD [] ++ rowwiseComponents rest = []
    rcases hr with hr | hr <;> rw [hr, hrest] <;> rfl

/-! ## Claim C6 -/

/-- C6 counterexample: for a row whose components collection is NULL but
whose timezone collection holds timezone 7, the timezone list handed to
the background task is empty, not the row-by-row concatenation of each
row's timezones claimed: the aggregation loop's `continue` on a NULL
`ical_components` skips that row's timezones as well. -/
theorem C6_counterexample : zonesHanded [tzSkipRow] ≠ rowwiseTimezones [tzSkipRow] := by
  decide

/-- C6 (amended): at import submission the collections handed to the
background task are built by prepending while traversing `self->rows` and
reversed once; the component list equals the concatenation, row by row in
traversed order, of each row's components in original per-row order, and
the timezone list equals the same concatenation of the timezones of those
rows whose components collection is present — a row with a NULL components
collection contributes neither components nor timezones. -/
theorem C6_aggregation_order (rows : List ImportRow) :
    componentsHanded rows = rowwiseComponents rows
  ∧ zonesHanded rows = guardedRowTimezones rows :=
  ⟨componentsHanded_eq rows, zonesHanded_eq rows⟩

/-! ## Claim C3 -/

/-- C3: with a calendar selected (the handler asserts this), if no row has
any parsed calendar component then clicking the import button is a no-op:
the state is unchanged (the dialog stays sensitive, no cancellable is
allocated, the dialog stays open) and no effect — in particular no
background task — is produced. -/
theorem C3_empty_batch_noop (s : DialogState)
    (hsel : s.selectedCalendar.isSome = true)
    (hempty : ∀ r ∈ s.rows, r.components = none ∨ r.components = some []) :
    on_import_button_clicked_cb s = some (s, []) := by
  obtain ⟨cal, hcal⟩ := Option.isSome_iff_exists.mp hsel
  have hc : (collectLoop s.rows [] []).1 = [] := by
    rw [collectLoop_eq, rowwiseComponents_eq_nil s.rows hempty]
    rfl
  simp [on_import_button_clicked_cb, hcal, hc]

/-- C3 witness: a concrete dialog with a selected calendar and two rows,
one with an empty parsed component array and one not yet parsed. -/
theorem C3_empty_batch_noop_witness :
    on_import_button_clicked_cb emptyRowsDialog = some (emptyRowsDialog, []) :=
  C3_empty_batch_noop emptyRowsDialog (by decide) (by decide)

/-! ## Claim C10 -/

/-- The `setup_files_list` loop adds one row per remaining file and counts
them. -/
theorem files_list_loop_spec (fs : List Nat) (s : DialogState) (n : Int) (m : Bool) :
    (files_list_loop s n m fs).2 = n + fs.length
  ∧ (files_list_loop s n m fs).1.rows.length = s.rows.length + fs.length := by
  induction fs generalizing s n with
  | nil => simp [files_list_loop]
  | cons f rest ih =>
    have h := ih (add_file s m) (n + 1)
    refine ⟨?_, ?_⟩
    · rw [show files_list_loop s n m (f :: rest) =
            files_list_loop (add_file s m) (n + 1) m rest from rfl, h.1]
      simp [List.length_cons]
      omega
    · rw [show files_list_loop s n m (f :: rest) =
            files_list_loop (add_file s m) (n + 1) m rest from rfl, h.2]
      simp [add_file]
      omega

/-- C10: constructing an import dialog from a file list requires a
non-empty list: `setup_files_list` dereferences `list->next` before any
null check, so the empty (NULL) list case has no defined result (`none`),
while for every non-empty list of length N the dialog's file count is set
to N and exactly one row is added per file. -/
theorem C10_file_list_precondition (file_list : List Nat) (h : file_list ≠ []) :
    gcal_import_dialog_new_for_file_list [] = none
  ∧ (gcal_import_dialog_new_for_file_list file_list).map
      (fun s => (s.nFiles, s.rows.length)) =
      some ((file_list.length : Int), file_list.length) := by
  refine ⟨rfl, ?_⟩
  match file_list, h with
  | f :: rest, _ =>
    have hs := files_list_loop_spec (f :: rest) initialDialogState 0 (!rest.isEmpty)
    simp only [gcal_import_dialog_new_for_file_list, setup_files_list, Option.map]
    rw [hs.1, hs.2]
    simp [initialDialogState]

/-- C10 witness: a concrete two-file list yields file count 2 and two
rows, while the empty list has no defined result. -/
theorem C10_file_list_precondition_witness :
    gcal_import_dialog_new_for_file_list [] = none
  ∧ (gcal_import_dialog_new_for_file_list [10, 20]).map
      (fun s => (s.nFiles, s.rows.length)) = some ((2 : Int), 2) :=
  C10_file_list_precondition [10, 20] (by decide)

/-! ## Claim C8 -/

/-- The placeholder spinner stays visible exactly until the first
`add_file`: `add_file` hides it, and `on_import_row_file_loaded_cb` never
touches it. -/
theorem runDialog_spinner (events : List DialogEvent) (s : DialogState) :
    (runDialog s events).spinnerVisible =
      (s.spinnerVisible && !(events.any isAddFileEvent)) := by
  induction events generalizing s with
  | nil => simp [runDialog]
  | cons e rest ih =>
    cases e with
    | addFileEvent m =>
      show (runDialog (add_file s m) rest).spinnerVisible = _
      simp [ih, add_file, isAddFileEvent]
    | rowLoaded i ev =>
      show (runDialog (on_import_row_file_loaded_cb s i ev) rest).spinnerVisible = _
      simp [ih, on_import_row_file_loaded_cb, isAddFileEvent]

/-- C8 counterexample: after adding one file and before any row has
loaded, the placeholder spinner is already hidden while no row is visible,
so the spinner does not remain shown until a row becomes visible. -/
theorem C8_counterexample :
    (runDialog initialDialogState [DialogEvent.addFileEvent false]).spinnerVisible = false
  ∧ (runDialog initialDialogState [DialogEvent.addFileEvent false]).rows.any
      (fun r => r.visible) = false := by
  decide

/-- C8 (amended): the loading placeholder spinner is hidden as soon as the
first file's row is added to the dialog (`add_file` hides it), regardless
of whether any row has become visible: after any event trace from the
initial dialog, the spinner is visible exactly when no add-file event has
occurred. -/
theorem C8_spinner_hidden_on_first_add (events : List DialogEvent) :
    (runDialog initialDialogState events).spinnerVisible =
      !(events.any isAddFileEvent) := by
  simpa [initialDialogState] using runDialog_spinner events initialDialogState

/-! ## Claim C9 -/

/-- C9: for two files whose rows finish loading with 3 and 2 events, once
both file-loaded callbacks have fired the dialog title reads
"Import 5 events", in either firing order: the running `n_events` count is
an order-independent sum. -/
theorem C9_title_order_independent :
    (on_import_row_file_loaded_cb
       (on_import_row_file_loaded_cb twoFileDialog 0 (some [1, 2, 3])) 1
       (some [4, 5])).title = "Import 5 events"
  ∧ (on_import_row_file_loaded_cb
       (on_import_row_file_loaded_cb twoFileDialog 1 (some [4, 5])) 0
       (some [1, 2, 3])).title = "Import 5 events" := by
  constructor <;> rfl

/-! ## Claim C4 -/

/-- C4: on every completion of the background import task the dialog is
closed; on an error the only additional effect is a logged warning, and on
success closing is the only effect — no distinguishable error state is
surfaced. -/
theorem C4_dialog_always_closes (result : Except String Unit) :
    DialogEffect.closeDialog ∈ on_events_created_cb result
  ∧ (∀ e, result = Except.error e →
      on_events_created_cb result =
        [DialogEffect.warnCreateError ("Error creating events: " ++ e),
         DialogEffect.closeDialog])
  ∧ (result = Except.ok () →
      on_events_created_cb result = [DialogEffect.closeDialog]) := by
  cases result with
  | error e =>
    refine ⟨by simp [on_events_created_cb], ?_, by intro h; cases h⟩
    intro e' he
    cases he
    rfl
  | ok u =>
    cases u
    refine ⟨by simp [on_events_created_cb], ?_, ?_⟩
    · intro e' he
      cases he
    · intro h
      rfl

/-- C4 witness: a concrete failing completion warns and closes; a
successful completion closes. -/
theorem C4_dialog_always_closes_witness :
    on_events_created_cb (Except.error "boom") =
      [DialogEffect.warnCreateError ("Error creating events: " ++ "boom"),
       DialogEffect.closeDialog]
  ∧ DialogEffect.closeDialog ∈ on_events_created_cb (Except.ok ()) :=
  ⟨(C4_dialog_always_closes (Except.error "boom")).2.1 "boom" rfl,
   (C4_dialog_always_closes (Except.ok ())).1⟩

/-! ## Claim C5 -/

/-- C5 counterexample: for the whitespace-only input " " the text-change
handler does not clear the result model (an earlier model stays
displayed), does not hide the suggestions, and does submit a search query:
the code only tests `*text == '\0'`, not whitespace. -/
theorem C5_counterexample :
    (on_entry_text_changed_cb whitespaceState).1.displayedModel = some 3
  ∧ (on_entry_text_changed_cb whitespaceState).1.revealChild = true
  ∧ (on_entry_text_changed_cb whitespaceState).2 =
      [SearchEffect.searchCall "(contains? \"summary\" \" \")" 50 none] := by
  refine ⟨rfl, rfl, rfl⟩

/-- C5 (amended): for the empty input text (only), the text-change handler
clears the result model to NULL, hides the suggestion popover, and submits
no query. -/
theorem C5_empty_text_clears (s : SearchButtonState) (h : s.entryText = "") :
    (on_entry_text_changed_cb s).1.displayedModel = none
  ∧ (on_entry_text_changed_cb s).1.revealChild = false
  ∧ (on_entry_text_changed_cb s).2 = [] := by
  cases hc : s.cancellable <;>
    simp [on_entry_text_changed_cb, h, cancelCancellable, hc, set_model,
          hide_suggestions, show ("" : String).isEmpty = true from rfl]

/-- C5 witness: a concrete state displaying earlier results whose entry is
now empty. -/
theorem C5_empty_text_clears_witness :
    (on_entry_text_changed_cb emptyTextState).1.displayedModel = none
  ∧ (on_entry_text_changed_cb emptyTextState).1.revealChild = false
  ∧ (on_entry_text_changed_cb emptyTextState).2 = [] :=
  C5_empty_text_clears emptyTextState rfl

/-! ## Claim C7 -/

/-- C7: for every non-empty entry text the handler submits exactly one
search, whose query is the string `(contains? "summary" "t")` with the
text embedded verbatim and unescaped, whose result cap is exactly 50, and
which carries the button's cancellable. -/
theorem C7_query_and_cap (s : SearchButtonState) (h : s.entryText ≠ "") :
    (on_entry_text_changed_cb s).2 =
      [SearchEffect.searchCall
        ("(contains? \"summary\" \"" ++ s.entryText ++ "\")") 50 s.cancellable] := by
  have hne : s.entryText.isEmpty = false := by
    cases hi : s.entryText.isEmpty
    · rfl
    · exact absurd ((String.isEmpty_iff _).mp hi) h
  cases hc : s.cancellable <;>
    simp [on_entry_text_changed_cb, hne, cancelCancellable, hc, sexpQuery]

/-- C7 witness: for the concrete text "abc" the submitted query and cap. -/
theorem C7_query_and_cap_witness :
    (on_entry_text_changed_cb abcState).2 =
      [SearchEffect.searchCall
        ("(contains? \"summary\" \"" ++ abcState.entryText ++ "\")") 50
        abcState.cancellable] :=
  C7_query_and_cap abcState (by decide)

/-! ## Claim C1 -/

/-- C1: evaluation of the code at the reordered-completion trace.  Type
"a" (query 0 submitted), type "ab" (query 1 submitted), query 1 completes
(its results are displayed), then the stale query 0 completes.  Because
`gcal-search-button.c` never allocates `self->cancellable`, the
`g_cancellable_cancel` on each keystroke cancels a NULL pointer (a no-op):
after both keystrokes no cancellable exists and no token was ever
cancelled, query 0 is still in flight, and its late completion's
`set_model` replaces the displayed model of the newer query 1 with the
stale query 0 results — the prior query is not cancelled and its
completion does overwrite the newer query's result list. -/
theorem C1_stale_completion_overwrites_newer :
    (runSearch initialSearchSystem
      [SearchEvent.keystroke "a", SearchEvent.keystroke "ab",
       SearchEvent.completes 1]).button.displayedModel = some 1
  ∧ (runSearch initialSearchSystem
      [SearchEvent.keystroke "a", SearchEvent.keystroke "ab",
       SearchEvent.completes 1, SearchEvent.completes 0]).button.displayedModel = some 0
  ∧ (runSearch initialSearchSystem
      [SearchEvent.keystroke "a", SearchEvent.keystroke "ab"]).button.cancellable = none
  ∧ (runSearch initialSearchSystem
      [SearchEvent.keystroke "a", SearchEvent.keystroke "ab"]).button.cancelledTokens = [] := by
  refine ⟨rfl, rfl, rfl, rfl⟩

/-! ## Claim C2 -/

/-- The timezone loop performs no create-objects call. -/
theorem zoneLoop_filter_create (b : BackendBehavior) (zs : List Nat) (i : Nat) :
    (zoneLoop b zs i).filter isCreateCall = [] := by
  induction zs generalizing i with
  | nil => rfl
  | cons z rest ih =>
    cases hcan : cancelledAt b.cancelledFrom i
    · cases he : b.addTzErr z <;>
        simp [zoneLoop, hcan, he, List.filter_append, ih, isCreateCall]
    · simp [zoneLoop, hcan]

/-- The timezone loop performs at most one add-timezone call per zone. -/
theorem zoneLoop_filter_addTz_length (b : BackendBehavior) (zs : List Nat) (i : Nat) :
    ((zoneLoop b zs i).filter isAddTzCall).length ≤ zs.length := by
  induction zs generalizing i with
  | nil => simp [zoneLoop]
  | cons z rest ih =>
    cases hcan : cancelledAt b.cancelledFrom i
    · have h := ih (i + 1)
      cases he : b.addTzErr z <;>
        simp [zoneLoop, hcan, he, List.filter_append, isAddTzCall] <;>
        omega
    · simp [zoneLoop, hcan]

/-- Without cancellation the timezone loop performs exactly one
add-timezone call per zone, in order, regardless of per-zone errors. -/
theorem zoneLoop_filter_addTz_of_not_cancelled (b : BackendBehavior)
    (hcan : b.cancelledFrom = none) (zs : List Nat) (i : Nat) :
    (zoneLoop b zs i).filter isAddTzCall = zs.map ImportCall.addTimezone := by
  induction zs generalizing i with
  | nil => rfl
  | cons z rest ih =>
    cases he : b.addTzErr z <;>
      simp [zoneLoop, cancelledAt, hcan, he, List.filter_append, isAddTzCall, ih]

/-- Without cancellation, every zone whose add-timezone call fails gets
its failure logged by the loop. -/
theorem zoneLoop_warn_mem (b : BackendBehavior) (hcan : b.cancelledFrom = none)
    (zs : List Nat) (z : Nat) (e : String) (he : b.addTzErr z = some e) :
    ∀ i, z ∈ zs → ImportCall.warnTimezone (tzWarnMsg e) ∈ zoneLoop b zs i := by
  induction zs with
  | nil => intro i h; cases h
  | cons w rest ih =>
    intro i hz
    rcases List.mem_cons.mp hz with h | h
    · subst h
      simp [zoneLoop, cancelledAt, hcan, he]
    · cases hw : b.addTzErr w
      · simp [zoneLoop, cancelledAt, hcan, hw]
        exact ih (i + 1) h
      · simp [zoneLoop, cancelledAt, hcan, hw, List.mem_append]
        exact Or.inr (ih (i + 1) h)

/-- C2: for every import batch with components N > 0 and M zones, and
every backend behaviour, the background task issues exactly one
create-objects call carrying all N components; it issues at most M
add-timezone calls, and — when the task cancellable is never cancelled —
exactly one per zone in order, regardless of which add-timezone calls
fail; each failing add-timezone call is logged and aborts neither the
remaining zone registrations nor the create-objects call. -/
theorem C2_import_batch (d : ImportData) (b : BackendBehavior)
    (hN : d.components ≠ []) :
    (import_data_thread d b).1.filter isCreateCall =
      [ImportCall.createObjects d.components]
  ∧ ((import_data_thread d b).1.filter isAddTzCall).length ≤ d.zones.length
  ∧ (b.cancelledFrom = none →
      (import_data_thread d b).1.filter isAddTzCall =
        d.zones.map ImportCall.addTimezone)
  ∧ (b.cancelledFrom = none → ∀ z ∈ d.zones, ∀ e, b.addTzErr z = some e →
      ImportCall.warnTimezone (tzWarnMsg e) ∈ (import_data_thread d b).1) := by
  refine ⟨?_, ?_, ?_, ?_⟩
  · simp [import_data_thread, List.filter_append, zoneLoop_filter_create, isCreateCall]
  · have h := zoneLoop_filter_addTz_length b d.zones 0
    simp [import_data_thread, List.filter_append, isAddTzCall]
    omega
  · intro hc
    simp [import_data_thread, List.filter_append, isAddTzCall,
          zoneLoop_filter_addTz_of_not_cancelled b hc]
  · intro hc z hz e he
    have h := zoneLoop_warn_mem b hc d.zones z e he 0 hz
    simp [import_data_thread, List.mem_append, h]

/-- C2 witness: a concrete batch of one component and two timezones
against a backend where adding timezone 2 fails: both timezones are still
registered, the failure is logged, and the single create-objects call
carries the component. -/
theorem C2_import_batch_witness :
    (import_data_thread importWitnessData importWitnessBehavior).1.filter isCreateCall =
      [ImportCall.createObjects [1]]
  ∧ (import_data_thread importWitnessData importWitnessBehavior).1.filter isAddTzCall =
      [ImportCall.addTimezone 2, ImportCall.addTimezone 3]
  ∧ ImportCall.warnTimezone (tzWarnMsg "boom") ∈
      (import_data_thread importWitnessData importWitnessBehavior).1 := by
  refine ⟨(C2_import_batch importWitnessData importWitnessBehavior (by decide)).1, ?_, ?_⟩
  · exact (C2_import_batch importWitnessData importWitnessBehavior (by decide)).2.2.1 rfl
  · exact (C2_import_batch importWitnessData importWitnessBehavior (by decide)).2.2.2 rfl 2
      (by decide) "boom" rfl
